import Mathlib

/-!
Verification development for the VisX camera control application
(src/visx/xapp.py and src/visx/qhyccd.py).

The embedding models the post-setup control state of the `VisX` device
class, its per-tick `loop` method, and the INDI property callbacks, as
pure Lean functions.  Conventions:

* Python floats (timestamps, seconds, degrees) are modelled as rationals.
* The SDK/ctypes boundary of `QHYCCDCamera` is modelled by an `Env`
  record supplying, for one control tick, the wall-clock time, the
  current detector temperature reading, the frame produced by a readout
  (or `none` when the readout call raises), the success of the FITS
  write, the return code of the SDK start-exposure command (which the
  source binds to `ret` and discards), and the INDI client state.
* Python exceptions escaping a call are modelled with `Except PyError`.
  Iterating over a `None` start-telemetry dictionary raises `TypeError`;
  a zero exposure time makes `refresh_properties` divide by zero.
* Side effects on collaborators (readout calls, FITS write attempts,
  camera start/cancel commands, cooler setpoint commands, the finalized
  exposure artifact) are accumulated in an `Effects` record.
-/

/-- Values stored in property/metadata mappings: Python numbers, strings,
booleans, or None. -/
inductive PropValue where
  | num (q : ℚ)
  | str (s : String)
  | bool (b : Bool)
  | pynone
deriving DecidableEq, Repr

/-- Result of an INDI client lookup: either a bare value or a structured
object carrying a value attribute (the source extracts it via hasattr). -/
inductive ClientValue where
  | raw (v : PropValue)
  | structured (v : PropValue)
deriving DecidableEq

/-- The INDI client as seen by the device: property lookups used by
gather-metadata, and filter-wheel element lookups used by
find-active-filter.  A `none` result models a missing or unavailable
source (client.get returning None). -/
structure Client where
  get : String → Option ClientValue
  getFilterElems : String → Option (List (String × Bool))

/-- Mutable state of the `QHYCCDCamera` wrapper that the control logic
reads: the cached exposure time, target temperature, and gain. -/
structure CameraState where
  exposureTime : ℚ
  targetTemperature : ℚ
  gain : ℚ
deriving DecidableEq, Repr

/-- Post-setup control state of the `VisX` device: the attributes the
loop and callbacks read and write. -/
structure VisXState where
  exposure_start_ts : ℚ
  should_cancel : Bool
  currently_exposing : Bool
  should_begin_exposure : Bool
  last_image_filename : Option String
  exposure_start_telem : Option (List (String × PropValue))
  exposure_time_sec : ℚ
  temp_target_deg_c : ℚ
  temp_current_deg_c : ℚ
  camera : CameraState
deriving DecidableEq

/-- External world for a single control tick. -/
structure Env where
  now : ℚ
  curtemp : ℚ
  readoutFrame : Option ℕ
  writeOk : Bool
  sdkStartOk : Bool
  filenameTimestamp : String
  client : Client

/-- The per-exposure artifact assembled by `finalize_exposure`: start
timestamp, the exposure time recorded in the DATE-END header, whether
the CANCELD flag was set, and the full header mapping. -/
structure FinalRecord where
  startTs : ℚ
  actualDuration : ℚ
  canceled : Bool
  header : List (String × PropValue)
deriving DecidableEq

/-- Collaborator side effects accumulated over one tick. -/
structure Effects where
  readoutCalls : ℕ := 0
  writeAttempts : ℕ := 0
  writeSucceeded : Bool := false
  cameraStartCalls : ℕ := 0
  cameraCancelCalls : ℕ := 0
  coolerCommands : List ℚ := []
  finalized : Option FinalRecord := none
deriving DecidableEq

/-- Python exceptions that can escape the modelled calls. -/
inductive PyError where
  | typeError
  | zeroDivisionError
  | readoutError
deriving DecidableEq, Repr

/-- EXTERNAL_RECORDED_PROPERTIES from xapp.py: INDI property name paired
with the FITS keyword to record it under (none means derive the keyword
from the property name). -/
def EXTERNAL_RECORDED_PROPERTIES : List (String × Option String) :=
  [(("tcsi.catalog.object"), some ("OBJECT")),
   (("tcsi.catdata.ra"), none),
   (("tcsi.catdata.dec"), none),
   (("tcsi.catdata.epoch"), none),
   (("observers.current_observer.full_name"), some ("OBSERVER")),
   (("tcsi.teldata.pa"), some ("PARANG")),
   (("flipacq.position.in"), none)]

/-- RECORDED_WHEELS from xapp.py. -/
def RECORDED_WHEELS : List String := [("fwfpm"), ("fwlyot")]

/-- FITS keyword for an external property: the mapped name when given,
otherwise the upper-cased property name with dots replaced by spaces. -/
def externalKeyword (indiProp : String) (mapped : Option String) : String :=
  match mapped with
  | some kw => kw
  | none => (indiProp.toUpper).replace (".") (" ")

/-- Value stored for an external property: None for a missing source,
otherwise the raw value, extracting the value attribute when present. -/
def externalValue (v : Option ClientValue) : PropValue :=
  match v with
  | none => PropValue.pynone
  | some (ClientValue.raw pv) => pv
  | some (ClientValue.structured pv) => pv

/-- find_active_filter from xapp.py: None when the filterName property is
missing, otherwise the first element whose switch is ON. -/
def find_active_filter (client : Client) (fwname : String) : Option String :=
  match client.getFilterElems (fwname ++ (".filterName")) with
  | none => none
  | some fwelems => (fwelems.find? (fun e => e.2)).map (fun e => e.1)

/-- VisX._gather_metadata: camera readings, then the configured external
properties, then one preset-name entry per recorded filter wheel. -/
def _gather_metadata (env : Env) (cam : CameraState) : List (String × PropValue) :=
  [(("CCDTEMP"), PropValue.num env.curtemp),
   (("CCDSETP"), PropValue.num cam.targetTemperature),
   (("GAIN"), PropValue.num cam.gain),
   (("EXPTIME"), PropValue.num cam.exposureTime)]
  ++ EXTERNAL_RECORDED_PROPERTIES.map (fun p =>
       (externalKeyword p.1 p.2, externalValue (env.client.get p.1)))
  ++ RECORDED_WHEELS.map (fun fw =>
       (fw.toUpper ++ (" PRESET NAME"),
        match find_active_filter env.client fw with
        | some s => PropValue.str s
        | none => PropValue.pynone))

/-- A two-element INDI NumberVector property (current, target). -/
structure NumberProp where
  current : ℚ
  target : ℚ
deriving DecidableEq

/-- Static bounds of a DefNumber element. -/
structure DefNumberSpec where
  min : ℚ
  max : ℚ
  step : ℚ
deriving DecidableEq

/-- Bounds of the exptime.current element from VisX._init_properties. -/
def exptime_current_def : DefNumberSpec :=
  { min := 0, max := 1000000, step := 1 }

/-- Bounds of the exptime.target element from VisX._init_properties. -/
def exptime_target_def : DefNumberSpec :=
  { min := 0, max := 1000000, step := 1 }

/-- VisX.handle_exptime: when not exposing and the inbound message has a
target different from the current value, update the property and the
stored exposure time; the (possibly unchanged) property is always echoed
back via update_property.  Returns the echoed property and the new
stored exposure time. -/
def handle_exptime (currently_exposing : Bool) (exposure_time_sec : ℚ)
    (existing : NumberProp) (msgTarget : Option ℚ) : NumberProp × ℚ :=
  match currently_exposing, msgTarget with
  | false, some t =>
      if t ≠ existing.current then
        ({ current := t, target := t }, t)
      else
        (existing, exposure_time_sec)
  | _, _ => (existing, exposure_time_sec)

/-- VisX.handle_expose: a momentary ON on the request or cancel switch
sets the corresponding flag; the switch is echoed back off. -/
def handle_expose (s : VisXState) (request cancel : Bool) : VisXState :=
  let s1 := if request then { s with should_begin_exposure := true } else s
  if cancel then { s1 with should_cancel := true } else s1

/-- The remaining-time computation at the top of VisX.refresh_properties:
while exposing, remaining seconds and remaining percentage; the
percentage divides by the stored exposure time and raises
ZeroDivisionError when it is zero. -/
def refresh_remaining (s : VisXState) (now : ℚ) : Except PyError (ℚ × ℚ) :=
  if s.currently_exposing then
    let remaining_sec := max ((s.exposure_start_ts + s.exposure_time_sec) - now) 0
    if s.exposure_time_sec = 0 then
      Except.error PyError.zeroDivisionError
    else
      Except.ok (remaining_sec, 100 * remaining_sec / s.exposure_time_sec)
  else
    Except.ok (0, 0)

/-- VisX.refresh_properties: compute the remaining-time numbers (which
can raise), then update_from_camera copies the camera readings into the
device attributes.  Property publication itself has no further effect on
the modelled state. -/
def refresh_properties (env : Env) (s : VisXState) : Except PyError VisXState :=
  match refresh_remaining s env.now with
  | Except.error e => Except.error e
  | Except.ok _ =>
      Except.ok { s with
        temp_target_deg_c := s.camera.targetTemperature,
        temp_current_deg_c := env.curtemp,
        exposure_time_sec := s.camera.exposureTime }

/-- VisX.maintain_temperature_control: assigns the target-temperature
setter of the camera, which stores the value and unconditionally issues
a cooler setpoint command to the SDK. -/
def maintain_temperature_control (s : VisXState) (eff : Effects) :
    VisXState × Effects :=
  let v := s.temp_target_deg_c
  ({ s with camera := { s.camera with targetTemperature := v } },
   { eff with coolerCommands := eff.coolerCommands ++ [v] })

/-- VisX.begin_exposure: mark exposing, clear the start flag, stamp the
start time, snapshot the start telemetry, then issue the SDK
start-exposure command whose return code the source discards. -/
def begin_exposure (env : Env) (s : VisXState) (eff : Effects) :
    Except PyError (VisXState × Effects) :=
  let s1 := { s with
    currently_exposing := true,
    should_begin_exposure := false,
    exposure_start_ts := env.now,
    exposure_start_telem := some (_gather_metadata env s.camera) }
  Except.ok (s1, { eff with cameraStartCalls := eff.cameraStartCalls + 1 })

/-- VisX.finalize_exposure: read the frame out (an unguarded call whose
failure escapes), gather end-of-exposure metadata, add the timing
headers using the camera exposure time unless an actual duration is
given, append the BEGIN entries from the start telemetry (raising
TypeError when it is None), set CANCELD when an actual duration was
given, then attempt exactly one FITS write whose failure is caught, and
clear the exposing flag. -/
def finalize_exposure (env : Env) (s : VisXState) (eff : Effects)
    (actual_exptime_sec : Option ℚ) : Except PyError (VisXState × Effects) :=
  let eff1 := { eff with readoutCalls := eff.readoutCalls + 1 }
  match env.readoutFrame with
  | none => Except.error PyError.readoutError
  | some _img =>
    match s.exposure_start_telem with
    | none => Except.error PyError.typeError
    | some startTelem =>
      let exposure_time := actual_exptime_sec.getD s.camera.exposureTime
      let header := _gather_metadata env s.camera
        ++ [(("DATE-OBS"), PropValue.num s.exposure_start_ts),
            (("DATE-END"), PropValue.num (s.exposure_start_ts + exposure_time)),
            (("DATE"), PropValue.num env.now)]
        ++ startTelem.map (fun kv => (("BEGIN ") ++ kv.1, kv.2))
        ++ (if actual_exptime_sec.isSome
            then [(("CANCELD"), PropValue.bool true)] else [])
      let filename := ("camvisx_") ++ env.filenameTimestamp ++ (".fits")
      Except.ok
        ({ s with
            last_image_filename := some filename,
            currently_exposing := false },
         { eff1 with
            writeAttempts := eff1.writeAttempts + 1,
            writeSucceeded := env.writeOk,
            finalized := some
              { startTs := s.exposure_start_ts,
                actualDuration := exposure_time,
                canceled := actual_exptime_sec.isSome,
                header := header } })

/-- VisX.cancel_exposure: clear the exposing and cancel flags, compute
the elapsed time as the actual duration, and finalize.  The source never
issues a camera cancel command (the body carries a TODO in its place),
so cameraCancelCalls is untouched. -/
def cancel_exposure (env : Env) (s : VisXState) (eff : Effects) :
    Except PyError (VisXState × Effects) :=
  let s1 := { s with currently_exposing := false, should_cancel := false }
  let actual := env.now - s1.exposure_start_ts
  finalize_exposure env s1 eff (some actual)

/-- The branch cascade at the top of VisX.loop: cancel first (with no
guard on an exposure being in flight), then begin when idle with a
pending start request, then natural completion strictly after the
deadline. -/
def loop_step (env : Env) (s : VisXState) : Except PyError (VisXState × Effects) :=
  if s.should_cancel then
    cancel_exposure env s {}
  else if !s.currently_exposing && s.should_begin_exposure then
    begin_exposure env s {}
  else if s.currently_exposing = true
          ∧ env.now > s.exposure_time_sec + s.exposure_start_ts then
    finalize_exposure env { s with currently_exposing := false } {} none
  else
    Except.ok (s, {})

/-- VisX.loop: one control tick — the exposure state machine, then
refresh_properties, then maintain_temperature_control. -/
def loop (env : Env) (s : VisXState) : Except PyError (VisXState × Effects) :=
  match loop_step env s with
  | Except.error e => Except.error e
  | Except.ok (s1, eff1) =>
    match refresh_properties env s1 with
    | Except.error e => Except.error e
    | Except.ok s2 => Except.ok (maintain_temperature_control s2 eff1)

/-- State component of a tick outcome, when the tick did not raise. -/
def stateAfter : Except PyError (VisXState × Effects) → Option VisXState
  | Except.ok p => some p.1
  | Except.error _ => none

/-- Effects component of a tick outcome, when the tick did not raise. -/
def effectsAfter : Except PyError (VisXState × Effects) → Option Effects
  | Except.ok p => some p.2
  | Except.error _ => none

/-! ## Concrete fixtures for the closed evaluations -/

/-- INDI client with every external source missing or unavailable. -/
def emptyClient : Client :=
  { get := fun _ => none, getFilterElems := fun _ => none }

/-- Camera fixture: 10 second exposures, cooling to -20, unit gain. -/
def testCam : CameraState :=
  { exposureTime := 10, targetTemperature := -20, gain := 1 }

/-- Baseline idle controller state, as left behind by a previously
completed exposure (a start-telemetry snapshot is still stored). -/
def idleState : VisXState :=
  { exposure_start_ts := 0
    should_cancel := false
    currently_exposing := false
    should_begin_exposure := false
    last_image_filename := none
    exposure_start_telem := some [(("CCDTEMP"), PropValue.num 0)]
    exposure_time_sec := 10
    temp_target_deg_c := -20
    temp_current_deg_c := -19
    camera := testCam }

/-- Baseline single-tick environment: wall clock at 5, a frame available
for readout, FITS write succeeding, SDK start command succeeding. -/
def baseEnv : Env :=
  { now := 5, curtemp := -19, readoutFrame := some 7, writeOk := true,
    sdkStartOk := true, filenameTimestamp := ("t"), client := emptyClient }

/-! ## C1 -/

/-- C1. The claim states that a cancel request observed while the
controller is Idle has no effect: no state change, no readout, no Frame
Sink write.  The code refutes this: VisX.loop runs cancel_exposure
whenever should_cancel is set, with no guard on an exposure being in
flight, so an Idle tick with a pending cancel performs a frame readout
and a Frame Sink write attempt, clears the cancel flag, and commits a
spurious canceled artifact whose duration is measured from the stale
start timestamp.  This theorem evaluates the tick at such an input. -/
theorem C1_cancel_while_idle_not_noop :
    (effectsAfter (loop baseEnv { idleState with should_cancel := true })).map
      Effects.writeAttempts = some 1 ∧
    (effectsAfter (loop baseEnv { idleState with should_cancel := true })).map
      Effects.readoutCalls = some 1 ∧
    (stateAfter (loop baseEnv { idleState with should_cancel := true })).map
      VisXState.should_cancel = some false ∧
    (effectsAfter (loop baseEnv { idleState with should_cancel := true })).map
      (fun e => (e.finalized).map FinalRecord.canceled) = some (some true) := by
  norm_num [loop, loop_step, cancel_exposure, finalize_exposure, refresh_properties,
    refresh_remaining, maintain_temperature_control, stateAfter, effectsAfter,
    baseEnv, idleState]

/-! ## C2 -/

/-- C2. Exposure started at t0 = 0 with planned duration 10; a cancel is
observed at the tick at t1 = 3.  The controller does finalize with
actual duration t1 - t0 = 3 and the canceled flag set, as the claim
states, but the Camera capability cancel_exposure is never invoked: the
body of VisX.cancel_exposure carries a TODO where the camera cancel
command should be, so no cancel command precedes the readout. -/
theorem C2_cancel_no_camera_cancel_command :
    (effectsAfter (loop { baseEnv with now := 3 }
        { idleState with currently_exposing := true, should_cancel := true })).map
      (fun e => (e.finalized).map FinalRecord.actualDuration) = some (some 3) ∧
    (effectsAfter (loop { baseEnv with now := 3 }
        { idleState with currently_exposing := true, should_cancel := true })).map
      (fun e => (e.finalized).map FinalRecord.canceled) = some (some true) ∧
    (effectsAfter (loop { baseEnv with now := 3 }
        { idleState with currently_exposing := true, should_cancel := true })).map
      Effects.cameraCancelCalls = some 0 ∧
    (stateAfter (loop { baseEnv with now := 3 }
        { idleState with currently_exposing := true, should_cancel := true })).map
      VisXState.currently_exposing = some false := by
  norm_num [loop, loop_step, cancel_exposure, finalize_exposure, refresh_properties,
    refresh_remaining, maintain_temperature_control, stateAfter, effectsAfter,
    baseEnv, idleState]

/-! ## C3 -/

/-- C3 counterexample. The claim states that with no cancel the
controller reaches Finalizing at the first tick whose time satisfies
now ≥ t0 + D.  At a tick with now exactly equal to t0 + D (start 0,
duration 2, tick at 2) the loop condition now > exposure_time_sec +
exposure_start_ts is strict, so the controller stays Exposing and
nothing is finalized. -/
theorem C3_boundary_tick_stays_exposing :
    (stateAfter (loop { baseEnv with now := 2 }
        { idleState with currently_exposing := true, exposure_time_sec := 2 })).map
      VisXState.currently_exposing = some true ∧
    (effectsAfter (loop { baseEnv with now := 2 }
        { idleState with currently_exposing := true, exposure_time_sec := 2 })).map
      Effects.finalized = some none ∧
    (effectsAfter (loop { baseEnv with now := 2 }
        { idleState with currently_exposing := true, exposure_time_sec := 2 })).map
      Effects.writeAttempts = some 0 := by
  norm_num [loop, loop_step, cancel_exposure, finalize_exposure, refresh_properties,
    refresh_remaining, maintain_temperature_control, stateAfter, effectsAfter,
    baseEnv, idleState, testCam]

/-- C3 amended. For an exposure in flight with planned duration D (the
stored exposure time and the camera exposure time both equal to D) and
no cancel pending, a tick at or before t0 + D leaves the controller
Exposing with nothing finalized, and a tick strictly after t0 + D
finalizes with actual duration D, canceled false, and the original start
timestamp: the controller reaches Finalizing at the first tick whose
time satisfies now > t0 + D, not now ≥ t0 + D. -/
theorem C3_natural_completion_strictly_after_deadline
    (s : VisXState) (env : Env) (D : ℚ)
    (hexp : s.currently_exposing = true) (hc : s.should_cancel = false)
    (hD1 : s.exposure_time_sec = D) (hD2 : s.camera.exposureTime = D)
    (hD0 : D ≠ 0)
    (tl : List (String × PropValue)) (htl : s.exposure_start_telem = some tl)
    (f : ℕ) (hf : env.readoutFrame = some f) :
    (env.now ≤ s.exposure_start_ts + D →
      (stateAfter (loop env s)).map VisXState.currently_exposing = some true ∧
      (effectsAfter (loop env s)).map Effects.finalized = some none ∧
      (effectsAfter (loop env s)).map Effects.writeAttempts = some 0) ∧
    (env.now > s.exposure_start_ts + D →
      (stateAfter (loop env s)).map VisXState.currently_exposing = some false ∧
      (effectsAfter (loop env s)).map
        (fun e => (e.finalized).map FinalRecord.actualDuration) = some (some D) ∧
      (effectsAfter (loop env s)).map
        (fun e => (e.finalized).map FinalRecord.canceled) = some (some false) ∧
      (effectsAfter (loop env s)).map
        (fun e => (e.finalized).map FinalRecord.startTs) =
        some (some s.exposure_start_ts)) := by
  constructor
  · intro h
    have hgt : ¬ (s.exposure_time_sec + s.exposure_start_ts < env.now) := by
      rw [hD1]; push_neg; linarith
    have hne : s.exposure_time_sec ≠ 0 := by rw [hD1]; exact hD0
    simp [loop, loop_step, hc, hexp, hgt, refresh_properties, refresh_remaining,
      hne, maintain_temperature_control, stateAfter, effectsAfter]
  · intro h
    have hgt : s.exposure_time_sec + s.exposure_start_ts < env.now := by
      rw [hD1]; linarith
    simp [loop, loop_step, hc, hexp, hgt, finalize_exposure, hf, htl, hD2,
      refresh_properties, refresh_remaining, maintain_temperature_control,
      stateAfter, effectsAfter]

/-- C3 witness. The amended theorem instantiated at start 0, duration 2,
tick at now = 3 with a frame available: the tick finalizes with actual
duration 2 and the canceled flag clear. -/
theorem C3_natural_completion_strictly_after_deadline_witness :
    (stateAfter (loop { baseEnv with now := 3 }
        { idleState with currently_exposing := true, exposure_time_sec := 2,
                         camera := { testCam with exposureTime := 2 } })).map
      VisXState.currently_exposing = some false ∧
    (effectsAfter (loop { baseEnv with now := 3 }
        { idleState with currently_exposing := true, exposure_time_sec := 2,
                         camera := { testCam with exposureTime := 2 } })).map
      (fun e => (e.finalized).map FinalRecord.actualDuration) = some (some 2) ∧
    (effectsAfter (loop { baseEnv with now := 3 }
        { idleState with currently_exposing := true, exposure_time_sec := 2,
                         camera := { testCam with exposureTime := 2 } })).map
      (fun e => (e.finalized).map FinalRecord.canceled) = some (some false) ∧
    (effectsAfter (loop { baseEnv with now := 3 }
        { idleState with currently_exposing := true, exposure_time_sec := 2,
                         camera := { testCam with exposureTime := 2 } })).map
      (fun e => (e.finalized).map FinalRecord.startTs) = some (some 0) :=
  (C3_natural_completion_strictly_after_deadline
    { idleState with currently_exposing := true, exposure_time_sec := 2,
                     camera := { testCam with exposureTime := 2 } }
    { baseEnv with now := 3 } 2 rfl rfl rfl rfl (by norm_num)
    [(("CCDTEMP"), PropValue.num 0)] rfl 7 rfl).2 (by norm_num [baseEnv, idleState])

/-! ## C4 -/

/-- C4 counterexample. The claim states that a readout failure during
finalization still leaves the controller in Idle with exactly one Frame
Sink write attempt, and that no exception escapes the tick.  In the
code, camera.readout() is called outside any try block, so when the
readout raises, the exception propagates out of VisX.loop: here a tick
whose exposure deadline has passed but whose readout fails makes the
whole tick raise, and no write attempt is made. -/
theorem C4_readout_failure_escapes_tick :
    loop { baseEnv with now := 20, readoutFrame := none }
      { idleState with currently_exposing := true } =
    Except.error PyError.readoutError := by
  norm_num [loop, loop_step, cancel_exposure, finalize_exposure, refresh_properties,
    refresh_remaining, maintain_temperature_control, baseEnv, idleState, testCam]

/-- C4 amended. Every entry into finalization performs its readout
first.  When the readout succeeds and a start-telemetry snapshot exists,
finalize_exposure makes exactly one Frame Sink write attempt and clears
the exposing flag regardless of the write outcome (a persistence failure
is caught inside the function); when the readout fails, the exception
propagates out of finalize_exposure with no write attempt made. -/
theorem C4_finalize_one_write_attempt_then_idle
    (env : Env) (s : VisXState) (eff : Effects) (a : Option ℚ)
    (tl : List (String × PropValue)) (htl : s.exposure_start_telem = some tl) :
    (env.readoutFrame = none →
      finalize_exposure env s eff a = Except.error PyError.readoutError) ∧
    (∀ f, env.readoutFrame = some f →
      ∃ s' eff', finalize_exposure env s eff a = Except.ok (s', eff') ∧
        eff'.writeAttempts = eff.writeAttempts + 1 ∧
        s'.currently_exposing = false) := by
  constructor
  · intro h
    simp [finalize_exposure, h]
  · intro f hf
    unfold finalize_exposure
    rw [hf, htl]
    exact ⟨_, _, rfl, rfl, rfl⟩

/-- C4 witness. The amended theorem instantiated at the baseline
environment with a frame available and the write failing: the finalize
call still returns normally with one write attempt and the exposing flag
cleared. -/
theorem C4_finalize_one_write_attempt_then_idle_witness :
    ∃ s' eff',
      finalize_exposure { baseEnv with writeOk := false }
        { idleState with currently_exposing := true } {} none =
        Except.ok (s', eff') ∧
      eff'.writeAttempts = Effects.writeAttempts {} + 1 ∧
      s'.currently_exposing = false :=
  (C4_finalize_one_write_attempt_then_idle { baseEnv with writeOk := false }
    { idleState with currently_exposing := true } {} none
    [(("CCDTEMP"), PropValue.num 0)] rfl).2 7 rfl

/-! ## C5 -/

/-- C5 counterexample. The claim states that if the Camera capability
start_exposure fails, the controller remains Idle, creates no exposure
record, and reports a HardwareCommandFailure.  In the code,
begin_exposure sets currently_exposing before issuing the start command,
and QHYCCDCamera.start_exposure binds the SDK return code to ret and
discards it, so a failed start command (sdkStartOk false) still leaves
the controller Exposing with a fresh exposure record and no failure
reported anywhere. -/
theorem C5_start_failure_still_becomes_exposing :
    (stateAfter (loop { baseEnv with sdkStartOk := false }
        { idleState with should_begin_exposure := true })).map
      VisXState.currently_exposing = some true := by
  norm_num [loop, loop_step, begin_exposure, refresh_properties, refresh_remaining,
    maintain_temperature_control, stateAfter, baseEnv, idleState, testCam]

/-- C5 amended. On a tick that observes a pending start request while
Idle with no cancel pending, the start flag is indeed cleared, but the
outcome is the same whether or not the SDK start command fails (its
return code is discarded): the controller transitions to Exposing, the
exposure record fields are created (start timestamp set to now, start
telemetry snapshotted), exactly one start command is issued, and no
failure is surfaced. -/
theorem C5_start_result_ignored
    (s : VisXState) (env : Env)
    (hc : s.should_cancel = false) (hexp : s.currently_exposing = false)
    (hflag : s.should_begin_exposure = true)
    (hne : s.exposure_time_sec ≠ 0)
    (hfail : env.sdkStartOk = false) :
    (stateAfter (loop env s)).map VisXState.currently_exposing = some true ∧
    (stateAfter (loop env s)).map VisXState.should_begin_exposure = some false ∧
    (stateAfter (loop env s)).map VisXState.exposure_start_ts = some env.now ∧
    (stateAfter (loop env s)).map VisXState.exposure_start_telem =
      some (some (_gather_metadata env s.camera)) ∧
    (effectsAfter (loop env s)).map Effects.cameraStartCalls = some 1 := by
  simp [loop, loop_step, hc, hexp, hflag, begin_exposure, refresh_properties,
    refresh_remaining, hne, maintain_temperature_control, stateAfter, effectsAfter]

/-- C5 witness. The amended theorem instantiated at the baseline idle
state with a pending start request and a failing SDK start command. -/
theorem C5_start_result_ignored_witness :
    (stateAfter (loop { baseEnv with sdkStartOk := false }
        { idleState with should_begin_exposure := true })).map
      VisXState.should_begin_exposure = some false ∧
    (stateAfter (loop { baseEnv with sdkStartOk := false }
        { idleState with should_begin_exposure := true })).map
      VisXState.exposure_start_ts =
      some (Env.now { baseEnv with sdkStartOk := false }) ∧
    (effectsAfter (loop { baseEnv with sdkStartOk := false }
        { idleState with should_begin_exposure := true })).map
      Effects.cameraStartCalls = some 1 :=
  have h := C5_start_result_ignored { idleState with should_begin_exposure := true }
    { baseEnv with sdkStartOk := false } rfl rfl rfl (by norm_num [idleState]) rfl
  ⟨h.2.1, h.2.2.1, h.2.2.2.2⟩

/-! ## C6 -/

/-- C6 counterexample. The claim states the start flag is cleared on
every tick that observes it, so a start requested while Exposing never
triggers an exposure later.  In the code the flag is cleared only inside
begin_exposure: with an exposure in flight (start 0, duration 10) and a
pending start request, a tick at now = 11 finalizes the exposure and
leaves the flag set, and the following tick at now = 12 then begins a
new exposure from the stale request. -/
theorem C6_start_request_latched_fires_later :
    (stateAfter (loop { baseEnv with now := 11 }
        { idleState with currently_exposing := true,
                         should_begin_exposure := true })).map
      VisXState.should_begin_exposure = some true ∧
    ((stateAfter (loop { baseEnv with now := 11 }
        { idleState with currently_exposing := true,
                         should_begin_exposure := true })).bind
      (fun s1 => (effectsAfter (loop { baseEnv with now := 12 } s1)).map
        Effects.cameraStartCalls)) = some 1 ∧
    ((stateAfter (loop { baseEnv with now := 11 }
        { idleState with currently_exposing := true,
                         should_begin_exposure := true })).bind
      (fun s1 => (stateAfter (loop { baseEnv with now := 12 } s1)).map
        VisXState.currently_exposing)) = some true := by
  norm_num [loop, loop_step, cancel_exposure, begin_exposure, finalize_exposure,
    refresh_properties, refresh_remaining, maintain_temperature_control,
    stateAfter, effectsAfter, baseEnv, idleState, testCam]

/-- C6 amended. The start flag is consumed only when acted upon: any
tick taken while Exposing (with no cancel pending) that returns normally
leaves the flag exactly as it was, and a tick taken while Idle with the
flag set (and no cancel pending) clears it and starts an exposure.  A
start requested while Exposing therefore persists and triggers an
exposure on the first Idle tick after the exposure ends. -/
theorem C6_flag_consumed_only_when_started
    (s : VisXState) (env : Env)
    (hc : s.should_cancel = false) (hne : s.exposure_time_sec ≠ 0) :
    (s.currently_exposing = true →
      (stateAfter (loop env s)).map VisXState.should_begin_exposure =
      (stateAfter (loop env s)).map (fun _ => s.should_begin_exposure)) ∧
    (s.currently_exposing = false → s.should_begin_exposure = true →
      (stateAfter (loop env s)).map VisXState.should_begin_exposure = some false ∧
      (effectsAfter (loop env s)).map Effects.cameraStartCalls = some 1 ∧
      (stateAfter (loop env s)).map VisXState.currently_exposing = some true) := by
  constructor
  · intro hexp
    by_cases hgt : s.exposure_time_sec + s.exposure_start_ts < env.now
    · cases hfr : env.readoutFrame with
      | none =>
        simp [loop, loop_step, hc, hexp, hgt, finalize_exposure, hfr, stateAfter]
      | some f =>
        cases htl : s.exposure_start_telem with
        | none =>
          simp [loop, loop_step, hc, hexp, hgt, finalize_exposure, hfr, htl, stateAfter]
        | some tl =>
          simp [loop, loop_step, hc, hexp, hgt, finalize_exposure, hfr, htl,
            refresh_properties, refresh_remaining, maintain_temperature_control,
            stateAfter]
    · simp [loop, loop_step, hc, hexp, hgt, refresh_properties, refresh_remaining,
        hne, maintain_temperature_control, stateAfter]
  · intro hexp hflag
    simp [loop, loop_step, hc, hexp, hflag, begin_exposure, refresh_properties,
      refresh_remaining, hne, maintain_temperature_control, stateAfter, effectsAfter]

/-- C6 witness. The amended theorem instantiated at the baseline idle
state with the start flag set: the tick clears the flag, issues one
start command, and the controller is Exposing. -/
theorem C6_flag_consumed_only_when_started_witness :
    (stateAfter (loop baseEnv { idleState with should_begin_exposure := true })).map
      VisXState.should_begin_exposure = some false ∧
    (effectsAfter (loop baseEnv { idleState with should_begin_exposure := true })).map
      Effects.cameraStartCalls = some 1 ∧
    (stateAfter (loop baseEnv { idleState with should_begin_exposure := true })).map
      VisXState.currently_exposing = some true :=
  (C6_flag_consumed_only_when_started { idleState with should_begin_exposure := true }
    baseEnv rfl (by norm_num [idleState])).2 rfl rfl

/-! ## C7 -/

/-- C7. Inbound exposure-time writes follow the claimed rules: while an
exposure is in flight the stored exposure time and the property are left
unchanged and the prior current value is echoed back; while Idle, a
write whose target differs from the current value updates the property
and the stored exposure time and echoes current equal to the new
target. -/
theorem C7_exptime_write_rules (exposing : Bool) (exptime : ℚ)
    (existing : NumberProp) (msg : Option ℚ) :
    (exposing = true →
      handle_exptime exposing exptime existing msg = (existing, exptime)) ∧
    (∀ t, exposing = false → msg = some t → t ≠ existing.current →
      handle_exptime exposing exptime existing msg =
        ({ current := t, target := t }, t)) := by
  constructor
  · intro h
    subst h
    cases msg <;> rfl
  · intro t hexp hmsg hne
    subst hexp
    subst hmsg
    simp [handle_exptime, hne]

/-- C7 witness. The write rules instantiated concretely: a write of 7
while exposing with current 5 echoes (5, 5) and leaves the stored time
at 5; the same write while Idle moves the property and stored time
to 7. -/
theorem C7_exptime_write_rules_witness :
    handle_exptime true 5 { current := 5, target := 5 } (some 7) =
      ({ current := 5, target := 5 }, 5) ∧
    handle_exptime false 5 { current := 5, target := 5 } (some 7) =
      ({ current := 7, target := 7 }, 7) :=
  ⟨(C7_exptime_write_rules true 5 { current := 5, target := 5 } (some 7)).1 rfl,
   (C7_exptime_write_rules false 5 { current := 5, target := 5 } (some 7)).2
     7 rfl rfl (by norm_num)⟩

/-! ## C8 -/

/-- C8 counterexample. The claim states that no setpoint command is
issued on a tick where the user target equals the last commanded
setpoint.  In the baseline idle state both are -20, yet the tick still
issues a cooler command: maintain_temperature_control assigns the
camera target-temperature setter unconditionally, and the setter always
forwards a CONTROL_COOLER command to the SDK. -/
theorem C8_equal_setpoint_still_commands :
    (effectsAfter (loop baseEnv idleState)).map Effects.coolerCommands =
      some [(-20 : ℚ)] := by
  norm_num [loop, loop_step, refresh_properties, refresh_remaining,
    maintain_temperature_control, effectsAfter, baseEnv, idleState, testCam]

/-- C8 amended. On every tick that returns normally, exactly one cooler
setpoint command is issued, unconditionally: its value is the camera
target temperature read back during the same tick (update_from_camera
overwrites the user target before the regulator runs), with no
comparison against the last commanded setpoint. -/
theorem C8_cooler_command_every_tick (s : VisXState) (env : Env) :
    (effectsAfter (loop env s)).map Effects.coolerCommands = none ∨
    (effectsAfter (loop env s)).map Effects.coolerCommands =
      some [s.camera.targetTemperature] := by
  by_cases hsc : s.should_cancel = true
  · cases hfr : env.readoutFrame with
    | none =>
      left
      simp [loop, loop_step, hsc, cancel_exposure, finalize_exposure, hfr,
        effectsAfter]
    | some f =>
      cases htl : s.exposure_start_telem with
      | none =>
        left
        simp [loop, loop_step, hsc, cancel_exposure, finalize_exposure, hfr, htl,
          effectsAfter]
      | some tl =>
        right
        simp [loop, loop_step, hsc, cancel_exposure, finalize_exposure, hfr, htl,
          refresh_properties, refresh_remaining, maintain_temperature_control,
          effectsAfter]
  · have hsc' : s.should_cancel = false := by simpa using hsc
    by_cases hexp : s.currently_exposing = true
    · by_cases hgt : s.exposure_time_sec + s.exposure_start_ts < env.now
      · cases hfr : env.readoutFrame with
        | none =>
          left
          simp [loop, loop_step, hsc', hexp, hgt, finalize_exposure, hfr,
            effectsAfter]
        | some f =>
          cases htl : s.exposure_start_telem with
          | none =>
            left
            simp [loop, loop_step, hsc', hexp, hgt, finalize_exposure, hfr, htl,
              effectsAfter]
          | some tl =>
            right
            simp [loop, loop_step, hsc', hexp, hgt, finalize_exposure, hfr, htl,
              refresh_properties, refresh_remaining, maintain_temperature_control,
              effectsAfter]
      · by_cases hne : s.exposure_time_sec = 0
        · left
          have hgt0 : ¬ (s.exposure_start_ts < env.now) := by
            rw [hne] at hgt
            simpa using hgt
          simp [loop, loop_step, hsc', hexp, hgt, hgt0, refresh_properties,
            refresh_remaining, hne, effectsAfter]
        · right
          simp [loop, loop_step, hsc', hexp, hgt, refresh_properties,
            refresh_remaining, hne, maintain_temperature_control, effectsAfter]
    · have hexp' : s.currently_exposing = false := by simpa using hexp
      by_cases hflag : s.should_begin_exposure = true
      · by_cases hne : s.exposure_time_sec = 0
        · left
          simp [loop, loop_step, hsc', hexp', hflag, begin_exposure,
            refresh_properties, refresh_remaining, hne, effectsAfter]
        · right
          simp [loop, loop_step, hsc', hexp', hflag, begin_exposure,
            refresh_properties, refresh_remaining, hne,
            maintain_temperature_control, effectsAfter]
      · have hflag' : s.should_begin_exposure = false := by simpa using hflag
        right
        simp [loop, loop_step, hsc', hexp', hflag', refresh_properties,
          refresh_remaining, maintain_temperature_control, effectsAfter]

/-! ## C9 -/

/-- C9. A missing or unavailable external telemetry source never makes
the snapshot fail: gather-metadata is a total function (client.get
returning None feeds the hasattr check and is stored as is, nothing
raises), the key set of the snapshot does not depend on the client or
camera readings at all, the snapshot always holds one entry per camera
reading, configured external property, and recorded wheel, a missing
source appears under its keyword with the None sentinel, and every
configured external property appears under its keyword with its looked
up value. -/
theorem C9_snapshot_total_with_sentinel (env : Env) (cam : CameraState)
    (env' : Env) (cam' : CameraState) :
    ((_gather_metadata env cam).map Prod.fst =
      (_gather_metadata env' cam').map Prod.fst) ∧
    (_gather_metadata env cam).length = 13 ∧
    (∀ p ∈ EXTERNAL_RECORDED_PROPERTIES, env.client.get p.1 = none →
      (externalKeyword p.1 p.2, PropValue.pynone) ∈ _gather_metadata env cam) ∧
    (∀ p ∈ EXTERNAL_RECORDED_PROPERTIES,
      (externalKeyword p.1 p.2, externalValue (env.client.get p.1)) ∈
        _gather_metadata env cam) := by
  refine ⟨?_, ?_, ?_, ?_⟩
  · rfl
  · simp [_gather_metadata, EXTERNAL_RECORDED_PROPERTIES, RECORDED_WHEELS]
  · intro p hp h
    have hm := List.mem_map_of_mem
      (fun q => (externalKeyword q.1 q.2, externalValue (env.client.get q.1))) hp
    have hm2 : (externalKeyword p.1 p.2, externalValue (env.client.get p.1)) ∈
        EXTERNAL_RECORDED_PROPERTIES.map
          (fun q => (externalKeyword q.1 q.2, externalValue (env.client.get q.1))) := hm
    rw [h] at hm2
    unfold _gather_metadata
    exact List.mem_append_left _ (List.mem_append_right _ hm2)
  · intro p hp
    have hm := List.mem_map_of_mem
      (fun q => (externalKeyword q.1 q.2, externalValue (env.client.get q.1))) hp
    unfold _gather_metadata
    exact List.mem_append_left _ (List.mem_append_right _ hm)

/-- C9 witness. With every external source missing, the catalog right
ascension still appears in the snapshot under its derived keyword with
the None sentinel. -/
theorem C9_snapshot_total_with_sentinel_witness :
    (externalKeyword ("tcsi.catdata.ra") none, PropValue.pynone) ∈
      _gather_metadata baseEnv testCam :=
  (C9_snapshot_total_with_sentinel baseEnv testCam baseEnv testCam).2.2.1
    (("tcsi.catdata.ra"), none) (by decide) rfl

/-! ## C10 -/

/-- C10. While an exposure is in flight, refresh_properties publishes a
remaining percentage computed as 100 times the remaining seconds divided
by the stored exposure time; the exptime property elements advertise a
minimum of 0, so a zero exposure time is within bounds; with a zero
exposure time the computation divides by zero, and in particular the
very tick that begins a zero-length exposure raises ZeroDivisionError
out of the loop. -/
theorem C10_zero_exptime_divides_by_zero :
    exptime_current_def.min = 0 ∧ exptime_target_def.min = 0 ∧
    (∀ s now, s.currently_exposing = true → s.exposure_time_sec ≠ 0 →
      refresh_remaining s now = Except.ok
        (max ((s.exposure_start_ts + s.exposure_time_sec) - now) 0,
         100 * max ((s.exposure_start_ts + s.exposure_time_sec) - now) 0 /
           s.exposure_time_sec)) ∧
    (∀ s now, s.currently_exposing = true → s.exposure_time_sec = 0 →
      refresh_remaining s now = Except.error PyError.zeroDivisionError) ∧
    (∀ s env, s.should_cancel = false → s.currently_exposing = false →
      s.should_begin_exposure = true → s.exposure_time_sec = 0 →
      loop env s = Except.error PyError.zeroDivisionError) := by
  refine ⟨rfl, rfl, ?_, ?_, ?_⟩
  · intro s now hexp hne
    simp [refresh_remaining, hexp, hne]
  · intro s now hexp h0
    simp [refresh_remaining, hexp, h0]
  · intro s env hc hexp hflag h0
    simp [loop, loop_step, hc, hexp, hflag, begin_exposure, refresh_properties,
      refresh_remaining, h0]

/-- C10 witness. A tick that begins an exposure with the stored exposure
time equal to 0 raises ZeroDivisionError out of the loop. -/
theorem C10_zero_exptime_divides_by_zero_witness :
    loop baseEnv { idleState with should_begin_exposure := true,
                                  exposure_time_sec := 0 } =
      Except.error PyError.zeroDivisionError :=
  C10_zero_exptime_divides_by_zero.2.2.2.2
    { idleState with should_begin_exposure := true, exposure_time_sec := 0 }
    baseEnv rfl rfl rfl rfl
